import Mathlib

/-!
Verification of the DirectorOS Actions API core (src/app.py): the
scene-expansion (`expand_scene`) and QA-validation (`qa_validate`) pipeline.

Python floats are modelled as rationals (ℚ); Python's `round(x, nd)`
(round half to even) is modelled exactly over ℚ by `roundHalfEven`.
Python `dict[str, Any]` values flowing through the pipeline are modelled by
the `Val` type (JSON-shaped: strings, numbers, booleans, null, and the
string lists the pipeline produces); dictionaries are association lists.
Operations that can raise a `TypeError` in Python (`in` on a non-container,
ordered comparison against a number) return `Except String _`.
-/

deriving instance DecidableEq for Except

namespace AVG

/-! ### Python `round` (banker's rounding) over ℚ -/

/-- Round half to even, the rounding used by Python's builtin `round`. -/
def roundHalfEven (x : ℚ) : ℤ :=
  if x - (⌊x⌋ : ℚ) < 1/2 then ⌊x⌋
  else if 1/2 < x - (⌊x⌋ : ℚ) then ⌊x⌋ + 1
  else if ⌊x⌋ % 2 = 0 then ⌊x⌋ else ⌊x⌋ + 1

/-- Python `round(x, nd)` for `nd ≥ 0` decimal digits. -/
def pyRound (x : ℚ) (nd : ℕ) : ℚ :=
  (roundHalfEven (x * (10:ℚ)^nd) : ℚ) / (10:ℚ)^nd

/-! ### String utilities -/

/-- ASCII `[a-zA-Z]`, the character class of the `re.findall` pattern in
`_keyword_score`. -/
def isAsciiAlpha (c : Char) : Bool :=
  (('a' ≤ c) && (c ≤ 'z')) || (('A' ≤ c) && (c ≤ 'Z'))

/-- Python `str.lower()` (restricted to the ASCII case mapping). -/
def pyLower (s : String) : String :=
  String.mk (s.toList.map Char.toLower)

/-- Maximal runs of `[a-zA-Z]` characters: `re.findall(r"[a-zA-Z]+", ·)`.
`acc` holds the current run, reversed. -/
def splitRuns : List Char → List Char → List String
  | [], acc => if acc.isEmpty then [] else [String.mk acc.reverse]
  | c :: cs, acc =>
    if isAsciiAlpha c then splitRuns cs (c :: acc)
    else if acc.isEmpty then splitRuns cs acc
    else String.mk acc.reverse :: splitRuns cs []

/-- The alphabetic tokens of `re.findall(r"[a-zA-Z]+", s.lower())`, in order. -/
def alphaTokens (s : String) : List String :=
  splitRuns (pyLower s).toList []

/-- `p` occurs as a contiguous sublist of `l` (Python's `p in l` for strings). -/
def infixOf : List Char → List Char → Bool
  | p, [] => p.isEmpty
  | p, c :: cs => p.isPrefixOf (c :: cs) || infixOf p cs

/-- Python's substring test `needle in hay`. -/
def substrOf (needle hay : String) : Bool :=
  infixOf needle.toList hay.toList

/-- Replace every occurrence of the (non-empty) pattern `p :: ps`,
left to right, non-overlapping — the semantics of Python `str.replace`. -/
def replaceCore (p : Char) (ps rep : List Char) : List Char → List Char
  | [] => []
  | c :: cs =>
    if (p :: ps).isPrefixOf (c :: cs) then
      rep ++ replaceCore p ps rep (List.drop ps.length cs)
    else c :: replaceCore p ps rep cs
termination_by l => l.length
decreasing_by
  all_goals simp only [List.length_cons, List.length_drop]
  all_goals omega

/-- Python `s.replace(pat, rep)`.  (The pipeline only replaces the non-empty
literal "winter street evening", so the empty-pattern case is the identity.) -/
def pyReplace (s pat rep : String) : String :=
  match pat.toList with
  | [] => s
  | p :: ps => String.mk (replaceCore p ps rep.toList s.toList)

/-! ### Values and dictionaries -/

/-- JSON-shaped Python values as they flow through the pipeline's
`Dict[str, Any]` layers.  Numbers are ℚ (modelling int/float); the only
list shape the pipeline produces or inspects is a list of strings
(`base_lighting`), modelled by `list`. -/
inductive Val where
  | str (s : String)
  | num (q : ℚ)
  | bool (b : Bool)
  | null
  | list (l : List String)
deriving DecidableEq

/-- Python `d.get(k)` on an association list: `none` models `None`. -/
def dget (d : List (String × Val)) (k : String) : Option Val :=
  (d.find? (fun kv => kv.1 == k)).map (fun kv => kv.2)

/-- Python truthiness of a value. -/
def pyTruthy : Val → Bool
  | .str s => !s.isEmpty
  | .num q => q != 0
  | .bool b => b
  | .null => false
  | .list l => !l.isEmpty

/-- Python truthiness of a `d.get(k)` result (`None` is falsy). -/
def optTruthy : Option Val → Bool
  | none => false
  | some v => pyTruthy v

/-- Python `needle in v` for a string needle: substring test on strings,
membership on lists, `TypeError` on non-containers. -/
def pyInStr (needle : String) (v : Val) : Except String Bool :=
  match v with
  | .str s => .ok (substrOf needle s)
  | .list l => .ok (l.contains needle)
  | _ => .error "TypeError: argument is not iterable"

/-- Python `any(k in v for k in ks)`: lazy, stops at the first hit. -/
def pyAnyIn : List String → Val → Except String Bool
  | [], _ => .ok false
  | k :: ks, v => do
    let b ← pyInStr k v
    if b then pure true else pyAnyIn ks v

/-- Python `v > q` for a numeric right-hand side: `bool` compares as 0/1
(bool is an int subclass); everything non-numeric raises `TypeError`. -/
def pyGtNum (v : Val) (q : ℚ) : Except String Bool :=
  match v with
  | .num x => .ok (decide (q < x))
  | .bool b => .ok (decide (q < (if b then (1:ℚ) else 0)))
  | _ => .error "TypeError: unsupported comparison"

/-- Python `isinstance(·, (int, float))` on a `d.get(k)` result.
`True`/`False` are instances of `int` in Python. -/
def isNumVal : Option Val → Bool
  | some (.num _) => true
  | some (.bool _) => true
  | _ => false

/-! ### `json.dumps` (default options: `ensure_ascii=True`) -/

/-- Lowercase hexadecimal digit. -/
def hexDigit (n : ℕ) : Char :=
  if n < 10 then Char.ofNat (48 + n) else Char.ofNat (87 + n)

/-- Four lowercase hex digits, as in `\uXXXX` escapes. -/
def hex4 (n : ℕ) : String :=
  String.mk [hexDigit (n / 4096 % 16), hexDigit (n / 256 % 16),
             hexDigit (n / 16 % 16), hexDigit (n % 16)]

/-- `json.dumps` escaping of one character (`ensure_ascii=True`). -/
def jsonEscapeChar (c : Char) : String :=
  if c = '"' then "\\\""
  else if c = '\\' then "\\\\"
  else if c = '\n' then "\\n"
  else if c = '\r' then "\\r"
  else if c = '\t' then "\\t"
  else if c.toNat = 8 then "\\b"
  else if c.toNat = 12 then "\\f"
  else if c.toNat < 32 || 126 < c.toNat then
    if c.toNat < 65536 then "\\u" ++ hex4 c.toNat
    else
      "\\u" ++ hex4 (55296 + (c.toNat - 65536) / 1024) ++
      "\\u" ++ hex4 (56320 + (c.toNat - 65536) % 1024)
  else String.mk [c]

/-- A JSON string literal. -/
def jsonStr (s : String) : String :=
  "\"" ++ String.join (s.toList.map jsonEscapeChar) ++ "\""

/-- A JSON number.  Python renders ints/floats in decimal notation; ℚ is
rendered as `num` or `num/den`.  Both renderings consist of digits and the
signs `-` `.` `/` `e` `+` only, so the case-insensitive searches for
`rain|snow|storm` and `flash|strobe|intense` performed on dumped text by
`_detect_conflicts` cannot distinguish them. -/
def jsonNum (q : ℚ) : String :=
  if q.den = 1 then toString q.num
  else toString q.num ++ "/" ++ toString q.den

/-- `json.dumps` of a single value. -/
def dumpVal : Val → String
  | .str s => jsonStr s
  | .num q => jsonNum q
  | .bool b => if b then "true" else "false"
  | .null => "null"
  | .list l => "[" ++ String.intercalate ", " (l.map jsonStr) ++ "]"

/-- `json.dumps` of a string-keyed dictionary (default separators). -/
def dumpDict (d : List (String × Val)) : String :=
  "\x7b" ++
    String.intercalate ", " (d.map (fun kv => jsonStr kv.1 ++ ": " ++ dumpVal kv.2)) ++
  "\x7d"

/-! ### Data model (src/app.py data models) -/

/-- `TimelineBeat`: timestamp (seconds), label, intensity. -/
structure TimelineBeat where
  t : ℚ
  beat : String
  intensity : ℚ
deriving DecidableEq

/-- `SceneDraft`: static / dynamic-strong / dynamic-weak layers, timed
beats, and per-engine prompt strings. -/
structure SceneDraft where
  st : List (String × Val)
  ds : List (String × Val)
  dw : List (String × Val)
  timeline : List TimelineBeat
  drafts : List (String × String)
deriving DecidableEq

/-- `Concept`: the immutable input to the Scene Composer. -/
structure Concept where
  id : String
  title : String
  logline : String
  style : String
  cast : List String
  anchors : List (String × List String)
  storyline : String
deriving DecidableEq

/-- `QAReport`: the QA pipeline output (severity kept as its literal
string, one of "info" / "warn" / "fail"). -/
structure QAReport where
  story_match_score : ℚ
  coverage_score : ℚ
  conflicts : List String
  severity : String
deriving DecidableEq

/-- `anchors.get(k, dflt)` on a `Concept`'s anchors mapping. -/
def anchorGetD (a : List (String × List String)) (k : String)
    (dflt : List String) : List String :=
  match a.find? (fun kv => kv.1 == k) with
  | some kv => kv.2
  | none => dflt

/-- `anchors.get(k)` without a default. -/
def anchorGet (a : List (String × List String)) (k : String) :
    Option (List String) :=
  (a.find? (fun kv => kv.1 == k)).map (fun kv => kv.2)

/-- `drafts.get(k)` on the per-engine draft dictionary. -/
def draftGet (d : List (String × String)) (k : String) : Option String :=
  (d.find? (fun kv => kv.1 == k)).map (fun kv => kv.2)

/-- `drafts.get(k, dflt)`. -/
def draftGetD (d : List (String × String)) (k : String) (dflt : String) : String :=
  (draftGet d k).getD dflt

/-! ### Scene Composer (`expand_scene`) -/

/-- The canonical five beat labels (`base_beats`). -/
def base_beats : List String :=
  ["hold eye contact", "hands rise", "handoff contact",
   "settle (grip ~0.2s)", "micro smile + exhale"]

/-- `beats_txt`: the first `n` canonical labels, extended with
`"beat 6"`, `"beat 7"`, … when `n > 5`. -/
def beats_txt (n : ℕ) : List String :=
  if n ≤ 5 then base_beats.take n
  else base_beats ++ (List.range (n - 5)).map (fun i => "beat " ++ toString (i + 6))

/-- The fixed five-element intensity reference curve (`intensity_seq`). -/
def intensity_seq : List ℚ := [0.3, 0.5, 0.9, 0.6, 0.4]

/-- The generated timeline: beat `i` at
`round(duration * i / (n - 1), 2)` (a single beat at `t = 0.0` when
`n == 1`), with intensity from `intensity_seq` (0.5 past index 4). -/
def timeline (duration : ℚ) (n : ℕ) : List TimelineBeat :=
  (beats_txt n).enum.map (fun ib =>
    let t : ℚ := if n = 1 then 0 else duration * ib.1 / ((n : ℚ) - 1)
    { t := pyRound t 2
      beat := ib.2
      intensity := intensity_seq.getD ib.1 0.5 })

/-- Python `f"{q:.1f}"` for `q = r / 10` already scaled to tenths. -/
def fmt1fNN (r : ℤ) : String :=
  toString (r / 10) ++ "." ++ toString (r % 10)

/-- Python `f"{q:.1f}"`: fixed-point with one decimal, half-to-even. -/
def fmt1f (q : ℚ) : String :=
  let r := roundHalfEven (q * 10)
  if r < 0 then "-" ++ fmt1fNN (-r) else fmt1fNN r

/-- `timeline_str`: `", ".join(f"{b.t:.1f}s {b.beat}" for b in timeline)`. -/
def timeline_str (tl : List TimelineBeat) : String :=
  String.intercalate ", " (tl.map (fun b => fmt1f b.t ++ "s " ++ b.beat))

/-- The "sora" draft string assembled by `expand_scene`, as a function of
the palette anchor and the generated timeline (the only varying parts). -/
def sora_draft (palette : List String) (tl : List TimelineBeat) : String :=
  "medium shot, eye-level, 85mm, shallow DOF; one camera move: slow push-in; subject: two 20s friends; " ++
  "background: winter street evening; action: hot pack handoff in a single beat; " ++
  "palette: " ++ String.intercalate ", " palette ++ "; " ++
  "timeline: " ++ timeline_str tl ++ "; " ++
  "positives only; no clones; no watermark;"

/-- `expand_scene` (the Scene Composer).  The request's `brief` and
`image_url` do not participate in scene construction (the source never
reads them here), so they are not parameters. -/
def expand_scene (sel : Concept) (duration : ℚ) (beats_n : ℕ) : SceneDraft :=
  let st : List (String × Val) :=
    [("ar", .str "16:9"),
     ("framing", .str "medium shot, eye-level"),
     ("lens_mm", .num 85),
     ("dof", .str "shallow"),
     ("base_lighting", .list (anchorGetD sel.anchors "lighting"
        ["soft key", "gentle fill", "rim"]))]
  let ds : List (String × Val) :=
    [("primary_action", .str "hot pack handoff (one clean beat)"),
     ("camera_move", .str "slow push-in"),
     ("focus_transition", .str "rack to hands then back to eyes"),
     ("lighting_event", .str "subtle warm shift at contact (DS7)")]
  let dw : List (String × Val) :=
    [("micro_vfx", .str "soft breath in cold air"),
     ("ambient", .str "light crowd bokeh wobble")]
  let tl := timeline duration beats_n
  let sora := sora_draft (anchorGetD sel.anchors "palette" []) tl
  let veo := pyReplace sora "winter street evening" "city plaza dusk"
  { st := st, ds := ds, dw := dw, timeline := tl,
    drafts := [("sora", sora), ("veo", veo)] }

/-! ### QA & finalization -/

/-- The fixed catalog of hard-conflict messages (`HARD_CONFLICTS`). -/
def HARD_CONFLICTS (k : String) : String :=
  if k = "ar_lock_missing" then "Missing AR 16:9 lock"
  else if k = "multi_camera_moves" then "Multiple camera moves detected"
  else if k = "weather_vfx_double_strong" then "Weather↔VFX double-strong forbidden"
  else if k = "penetration_limit" then "Penetration exceeds 0.2 cm"
  else if k = "focal_not_locked" then "Focal length not locked or invalid"
  else if k = "digital_crop" then "DigitalCropInShot > 10%"
  else ""

/-- `_keyword_score` (the Lexical Scorer). -/
def keyword_score (brief draft : String) : ℚ :=
  let words := (alphaTokens brief).dedup
  if words.isEmpty then 0.7
  else
    let hits := (words.filter (fun w => substrOf w (pyLower draft))).length
    min 1 (0.5 + 0.5 * ((hits : ℚ) / (max 1 words.length : ℕ)))

/-- The Coverage Evaluator's `ar` check: `scene.st.get("ar") == "16:9"`. -/
def arOk (scene : SceneDraft) : Bool :=
  dget scene.st "ar" == some (.str "16:9")

/-- `_coverage_score` (the Coverage Evaluator): satisfied checks / 6. -/
def coverage_score (scene : SceneDraft) : ℚ :=
  let total : ℕ := 6
  let hv : ℕ :=
    (if arOk scene then 1 else 0) +
    (if optTruthy (dget scene.st "lens_mm") then 1 else 0) +
    (if optTruthy (dget scene.ds "primary_action") then 1 else 0) +
    (if optTruthy (dget scene.ds "camera_move") then 1 else 0) +
    (if !scene.timeline.isEmpty then 1 else 0) +
    (if optTruthy (dget scene.dw "micro_vfx") then 1 else 0)
  (hv : ℚ) / (total : ℚ)

/-- The Coverage Evaluator's six checks, in source order. -/
def coverageChecks (scene : SceneDraft) : List Bool :=
  [arOk scene,
   optTruthy (dget scene.st "lens_mm"),
   optTruthy (dget scene.ds "primary_action"),
   optTruthy (dget scene.ds "camera_move"),
   !scene.timeline.isEmpty,
   optTruthy (dget scene.dw "micro_vfx")]

/-- Conflict check 2: `any(k in cm for k in ["&", ",", "+"])` where
`cm = scene.ds.get("camera_move", "")`. -/
def multiMoveCheck (scene : SceneDraft) : Except String Bool :=
  pyAnyIn ["&", ",", "+"] ((dget scene.ds "camera_move").getD (.str ""))

/-- Conflict check 3: case-insensitive search of `rain|snow|storm` over the
dumped `dw` layer AND `flash|strobe|intense` over the dumped `ds` layer. -/
def weatherVfxCheck (scene : SceneDraft) : Bool :=
  (substrOf "rain" (pyLower (dumpDict scene.dw)) ||
   substrOf "snow" (pyLower (dumpDict scene.dw)) ||
   substrOf "storm" (pyLower (dumpDict scene.dw))) &&
  (substrOf "flash" (pyLower (dumpDict scene.ds)) ||
   substrOf "strobe" (pyLower (dumpDict scene.ds)) ||
   substrOf "intense" (pyLower (dumpDict scene.ds)))

/-- Conflict check 4:
`scene.ds.get("penetration_mm", 0) and scene.ds.get("penetration_mm", 0) > 2.0`
(`and` short-circuits, so the comparison only runs on a truthy value;
the threshold literal is `2.0`). -/
def penetrationCheck (scene : SceneDraft) : Except String Bool :=
  let p := (dget scene.ds "penetration_mm").getD (.num 0)
  if pyTruthy p then pyGtNum p 2 else .ok false

/-- Conflict check 6:
`scene.st.get("digital_crop_pct") and scene.st.get("digital_crop_pct") > 10`. -/
def digitalCropCheck (scene : SceneDraft) : Except String Bool :=
  match dget scene.st "digital_crop_pct" with
  | none => .ok false
  | some v => if pyTruthy v then pyGtNum v 10 else .ok false

/-- One appended conflict entry: `[m]` when the check fired, else `[]`. -/
def condList (b : Bool) (m : String) : List String :=
  if b then [m] else []

/-- `_detect_conflicts` (the Conflict Detector).  Messages are appended in
catalog order; a `TypeError` raised by a check propagates (checks run in
source order, so the earliest raising check wins). -/
def detect_conflicts (scene : SceneDraft) : Except String (List String) :=
  match multiMoveCheck scene with
  | .error e => .error e
  | .ok b2 =>
    match penetrationCheck scene with
    | .error e => .error e
    | .ok b4 =>
      match digitalCropCheck scene with
      | .error e => .error e
      | .ok b6 =>
        .ok (condList (!arOk scene) (HARD_CONFLICTS "ar_lock_missing") ++
             condList b2 (HARD_CONFLICTS "multi_camera_moves") ++
             condList (weatherVfxCheck scene) (HARD_CONFLICTS "weather_vfx_double_strong") ++
             condList b4 (HARD_CONFLICTS "penetration_limit") ++
             condList (!isNumVal (dget scene.st "lens_mm")) (HARD_CONFLICTS "focal_not_locked") ++
             condList b6 (HARD_CONFLICTS "digital_crop"))

/-- `_severity` (the Severity Classifier). -/
def severity (story_match coverage : ℚ) (conflicts : List String) : String :=
  if story_match < 0.60 ∨ coverage < 0.70 ∨ conflicts ≠ [] then "fail"
  else if story_match < 0.8 ∨ coverage < 0.85 then "warn"
  else "info"

/-- `json.dumps({"st": scene.st, "ds": scene.ds})`, the brief handed to the
Lexical Scorer by `qa_validate`. -/
def dumpStDs (scene : SceneDraft) : String :=
  "\x7b" ++ jsonStr "st" ++ ": " ++ dumpDict scene.st ++ ", " ++
            jsonStr "ds" ++ ": " ++ dumpDict scene.ds ++ "\x7d"

/-- The raw (unrounded) story-match score computed by `qa_validate`. -/
def story_match_raw (scene : SceneDraft) (engine : String) : ℚ :=
  keyword_score (dumpStDs scene)
    (draftGetD scene.drafts (if engine == "SORA" then "sora" else "veo") "")

/-- The `report` part of `qa_validate`: scores rounded to 3 decimals for
the report, severity computed from the unrounded values.  (The
`engine_render` block built alongside is independent of the report.) -/
def qa_validate_report (scene : SceneDraft) (engine : String) :
    Except String QAReport :=
  match detect_conflicts scene with
  | .error e => .error e
  | .ok conflicts =>
    let story_match := story_match_raw scene engine
    let coverage := coverage_score scene
    let sev := severity story_match coverage conflicts
    .ok { story_match_score := pyRound story_match 3
          coverage_score := pyRound coverage 3
          conflicts := conflicts
          severity := sev }

/-! ### Concrete instances used by witnesses and counterexamples -/

/-- A concept whose anchors mapping has no keys at all. -/
def conceptEmptyAnchors : Concept :=
  { id := "c1", title := "t", logline := "l", style := "indie",
    cast := [], anchors := [], storyline := "s" }

/-- Witness scene for C9: five of six coverage checks pass (lens is 0), no
conflicts, empty drafts. -/
def sceneC9 : SceneDraft :=
  { st := [("ar", .str "16:9"), ("lens_mm", .num 0)]
    ds := [("primary_action", .str "handoff"), ("camera_move", .str "push")]
    dw := [("micro_vfx", .str "breath")]
    timeline := [{ t := 0, beat := "b", intensity := 1/2 }]
    drafts := [] }

/-- The QA report produced for `sceneC9`. -/
def reportC9 : QAReport :=
  { story_match_score := 1/2, coverage_score := 833/1000,
    conflicts := [], severity := "fail" }

/-- Witness scene for C5: `ds.camera_move = "pan left, tilt up"`. -/
def sceneC5 : SceneDraft :=
  { st := [("ar", .str "16:9"), ("lens_mm", .num 85)]
    ds := [("camera_move", .str "pan left, tilt up")]
    dw := []
    timeline := []
    drafts := [] }

/-- Witness scene for C6: `ds.penetration_mm = 3`. -/
def sceneC6 : SceneDraft :=
  { st := [("ar", .str "16:9"), ("lens_mm", .num 85)]
    ds := [("penetration_mm", .num 3)]
    dw := []
    timeline := []
    drafts := [] }

/-- Witness scene for C10: `st.lens_mm = 0`. -/
def sceneC10 : SceneDraft :=
  { st := [("ar", .str "16:9"), ("lens_mm", .num 0)]
    ds := [("camera_move", .str "slow push-in")]
    dw := []
    timeline := []
    drafts := [] }

/-! ### Helper lemmas -/

/-- Counting `true` in a six-element boolean list is the sum of the six
indicator values. -/
theorem count_true_six_nat (a b c d e f : Bool) :
    ([a, b, c, d, e, f].count true) =
      (if a then 1 else 0) + (if b then 1 else 0) + (if c then 1 else 0) +
      (if d then 1 else 0) + (if e then 1 else 0) + (if f then 1 else 0) := by
  revert a b c d e f
  decide

/-- Round-half-to-even is monotone. -/
theorem roundHalfEven_mono {x y : ℚ} (h : x ≤ y) :
    roundHalfEven x ≤ roundHalfEven y := by
  unfold roundHalfEven
  have hf : ⌊x⌋ ≤ ⌊y⌋ := Int.floor_mono h
  by_cases heq : ⌊x⌋ = ⌊y⌋
  · rw [heq]
    split_ifs <;> first | omega | linarith
  · have hlt : ⌊x⌋ < ⌊y⌋ := lt_of_le_of_ne hf heq
    split_ifs <;> omega

/-- `pyRound` is monotone. -/
theorem pyRound_mono {x y : ℚ} (nd : ℕ) (h : x ≤ y) :
    pyRound x nd ≤ pyRound y nd := by
  unfold pyRound
  have hp : (0:ℚ) < (10:ℚ)^nd := by positivity
  have hm : roundHalfEven (x * 10^nd) ≤ roundHalfEven (y * 10^nd) :=
    roundHalfEven_mono (mul_le_mul_of_nonneg_right h (le_of_lt hp))
  gcongr

/-- `pyRound` fixes zero. -/
theorem pyRound_zero (nd : ℕ) : pyRound 0 nd = 0 := by
  norm_num [pyRound, roundHalfEven]

/-- The beat label list always has exactly `n` entries. -/
theorem beats_txt_length (n : ℕ) : (beats_txt n).length = n := by
  unfold beats_txt
  split_ifs with h
  · simp only [List.length_take, base_beats, List.length_cons, List.length_nil]
    omega
  · simp only [List.length_append, List.length_map, List.length_range,
      base_beats, List.length_cons, List.length_nil]
    omega

/-- The generated timeline always has exactly `n` beats. -/
theorem timeline_length (d : ℚ) (n : ℕ) : (timeline d n).length = n := by
  unfold timeline
  simp [beats_txt_length]

/-- The timestamp stored at index `i` of the generated timeline. -/
theorem timeline_get?_t (d : ℚ) (n i : ℕ) (hi : i < n) :
    ((timeline d n).get? i).map TimelineBeat.t =
      some (pyRound (if n = 1 then 0 else d * i / ((n:ℚ) - 1)) 2) := by
  have hlen : i < (beats_txt n).length := by rw [beats_txt_length]; exact hi
  unfold timeline
  rw [List.get?_map, List.get?_enum, List.get?_eq_get hlen]
  simp

/-- Membership in a conditional conflict entry. -/
theorem mem_condList {b : Bool} {m x : String} :
    x ∈ condList b m ↔ b = true ∧ x = m := by
  cases b <;> simp [condList]

/-- A successful conflict detection decomposes into the six checks'
messages appended in catalog order. -/
theorem detect_conflicts_ok {scene : SceneDraft} {l : List String}
    (h : detect_conflicts scene = .ok l) :
    ∃ b2 b4 b6, multiMoveCheck scene = .ok b2 ∧
      penetrationCheck scene = .ok b4 ∧
      digitalCropCheck scene = .ok b6 ∧
      l = condList (!arOk scene) (HARD_CONFLICTS "ar_lock_missing") ++
          condList b2 (HARD_CONFLICTS "multi_camera_moves") ++
          condList (weatherVfxCheck scene) (HARD_CONFLICTS "weather_vfx_double_strong") ++
          condList b4 (HARD_CONFLICTS "penetration_limit") ++
          condList (!isNumVal (dget scene.st "lens_mm")) (HARD_CONFLICTS "focal_not_locked") ++
          condList b6 (HARD_CONFLICTS "digital_crop") := by
  unfold detect_conflicts at h
  cases h2 : multiMoveCheck scene with
  | error e => rw [h2] at h; cases h
  | ok b2 =>
    rw [h2] at h
    cases h4 : penetrationCheck scene with
    | error e => rw [h4] at h; cases h
    | ok b4 =>
      rw [h4] at h
      cases h6 : digitalCropCheck scene with
      | error e => rw [h6] at h; cases h
      | ok b6 =>
        rw [h6] at h
        cases h
        exact ⟨b2, b4, b6, rfl, rfl, rfl, rfl⟩

/-- A one-character pattern occurs as an infix iff the character occurs. -/
theorem infixOf_singleton (c : Char) (l : List Char) :
    infixOf [c] l = l.contains c := by
  induction l with
  | nil => rfl
  | cons a as ih =>
    simp only [infixOf, List.isPrefixOf, List.contains_cons]
    cases hca : c == a <;> simp_all [List.isPrefixOf]

/-- `any(k in cm for k in ["&", ",", "+"])` on a string value. -/
theorem pyAnyIn_seps_str (s : String) :
    pyAnyIn ["&", ",", "+"] (.str s) =
      .ok (substrOf "&" s || substrOf "," s || substrOf "+" s) := by
  simp only [pyAnyIn, pyInStr]
  cases h1 : substrOf "&" s <;> cases h2 : substrOf "," s <;>
    cases h3 : substrOf "+" s <;>
    simp [pyAnyIn, pyInStr, h1, h2, h3, bind, Except.bind, pure, Except.pure]

/-- An absent anchors key makes `anchors.get(k, dflt)` return the default. -/
theorem anchorGetD_of_none {a : List (String × List String)} {k : String}
    (h : anchorGet a k = none) (dflt : List String) :
    anchorGetD a k dflt = dflt := by
  unfold anchorGet at h
  unfold anchorGetD
  cases hf : a.find? (fun kv => kv.1 == k) with
  | none => rfl
  | some kv => rw [hf] at h; simp at h

/-- The composed static layer's `base_lighting` entry. -/
theorem st_base_lighting (c : Concept) (d : ℚ) (n : ℕ) :
    dget (expand_scene c d n).st "base_lighting" =
      some (.list (anchorGetD c.anchors "lighting"
        ["soft key", "gentle fill", "rim"])) := rfl

/-- The composed "sora" draft as a function of the palette anchor and the
generated timeline. -/
theorem drafts_sora_eq (c : Concept) (d : ℚ) (n : ℕ) :
    draftGetD (expand_scene c d n).drafts "sora" "" =
      sora_draft (anchorGetD c.anchors "palette" []) (timeline d n) := rfl

/-! ### Claims -/

/-- C1: for beat counts 1..12 and duration ≥ 0, the generated timeline has
exactly `n` beats; beat `i` (0-indexed) sits at
`round(duration * i / (n-1), 2)` (a single beat at 0.0 when `n = 1`);
the first timestamp is 0.0, the last (for `n > 1`) is the duration rounded
to 2 decimals, and timestamps are non-decreasing along the timeline. -/
theorem C1_scene_timeline (d : ℚ) (n : ℕ) (h1 : 1 ≤ n) (h12 : n ≤ 12)
    (hd : 0 ≤ d) :
    (timeline d n).length = n ∧
    (∀ i, i < n → ((timeline d n).get? i).map TimelineBeat.t =
        some (if n = 1 then 0 else pyRound (d * i / ((n : ℚ) - 1)) 2)) ∧
    ((timeline d n).get? 0).map TimelineBeat.t = some 0 ∧
    (1 < n → ((timeline d n).get? (n - 1)).map TimelineBeat.t =
        some (pyRound d 2)) ∧
    (∀ i j bi bj, i ≤ j → (timeline d n).get? i = some bi →
        (timeline d n).get? j = some bj → bi.t ≤ bj.t) := by
  have hone : ∀ i, i < n → ((timeline d n).get? i).map TimelineBeat.t =
      some (if n = 1 then 0 else pyRound (d * i / ((n : ℚ) - 1)) 2) := by
    intro i hi
    rw [timeline_get?_t d n i hi]
    by_cases hn1 : n = 1
    · simp [hn1, pyRound_zero]
    · simp [hn1]
  refine ⟨timeline_length d n, hone, ?_, ?_, ?_⟩
  · rw [hone 0 (by omega)]
    by_cases hn1 : n = 1
    · simp [hn1]
    · simp [hn1, pyRound_zero]
  · intro hn
    have hne : ((n : ℚ) - 1) ≠ 0 := by
      have : (1:ℚ) < (n:ℚ) := by exact_mod_cast hn
      linarith
    rw [hone (n - 1) (by omega), if_neg (by omega)]
    have hcast : ((n - 1 : ℕ) : ℚ) = (n : ℚ) - 1 := by
      have := Nat.cast_sub h1 (R := ℚ)
      simpa using this
    rw [hcast, mul_div_assoc, div_self hne, mul_one]
  · intro i j bi bj hij hbi hbj
    have hjlen : j < n := by
      have := List.get?_eq_some.mp hbj
      obtain ⟨hh, _⟩ := this
      rwa [timeline_length] at hh
    have hilen : i < n := lt_of_le_of_lt hij hjlen
    have hbi' : bi.t = if n = 1 then 0 else pyRound (d * i / ((n : ℚ) - 1)) 2 := by
      have := hone i hilen
      rw [hbi] at this
      simpa using this
    have hbj' : bj.t = if n = 1 then 0 else pyRound (d * j / ((n : ℚ) - 1)) 2 := by
      have := hone j hjlen
      rw [hbj] at this
      simpa using this
    rw [hbi', hbj']
    by_cases hn1 : n = 1
    · simp [hn1]
    · rw [if_neg hn1, if_neg hn1]
      apply pyRound_mono
      have hpos : (0:ℚ) < (n : ℚ) - 1 := by
        have h2 : 2 ≤ n := by omega
        have : (2:ℚ) ≤ (n:ℚ) := by exact_mod_cast h2
        linarith
      gcongr

/-- C1 witness: duration 2.6 with 5 beats — 5 beats, first at 0.0, last at
2.6. -/
theorem C1_scene_timeline_witness :
    (timeline (2.6 : ℚ) 5).length = 5 ∧
    ((timeline (2.6 : ℚ) 5).get? 0).map TimelineBeat.t = some 0 ∧
    ((timeline (2.6 : ℚ) 5).get? 4).map TimelineBeat.t = some 2.6 := by
  obtain ⟨hlen, _hidx, hfirst, hlast, _hmono⟩ :=
    C1_scene_timeline (2.6 : ℚ) 5 (by norm_num) (by norm_num) (by norm_num)
  refine ⟨hlen, hfirst, ?_⟩
  have h26 : pyRound (2.6 : ℚ) 2 = 2.6 := by norm_num [pyRound, roundHalfEven]
  have h := hlast (by norm_num)
  rw [h26] at h
  exact h

/-- C2: the Severity Classifier returns "fail" exactly when
story-match < 0.60 or coverage < 0.70 or the conflict list is non-empty;
otherwise "warn" exactly when story-match < 0.80 or coverage < 0.85;
otherwise "info". -/
theorem C2_severity_classifier (sm cov : ℚ) (cs : List String) :
    (severity sm cov cs = "fail" ↔ (sm < 0.60 ∨ cov < 0.70 ∨ cs ≠ [])) ∧
    (severity sm cov cs = "warn" ↔
      (¬(sm < 0.60 ∨ cov < 0.70 ∨ cs ≠ []) ∧ (sm < 0.80 ∨ cov < 0.85))) ∧
    (severity sm cov cs = "info" ↔
      (¬(sm < 0.60 ∨ cov < 0.70 ∨ cs ≠ []) ∧ ¬(sm < 0.80 ∨ cov < 0.85))) := by
  have h8 : (0.80 : ℚ) = 0.8 := by norm_num
  unfold severity
  rw [h8]
  split_ifs with h1 h2 <;> simp_all

/-- C3: the Coverage Evaluator returns exactly (satisfied checks) / 6 over
the six fixed checks, its value always lies in {0/6, …, 6/6}, and
re-evaluating the same scene gives the same value. -/
theorem C3_coverage_evaluator (scene : SceneDraft) :
    coverage_score scene = (((coverageChecks scene).count true : ℕ) : ℚ) / 6 ∧
    (∃ k : ℕ, k ≤ 6 ∧ coverage_score scene = (k : ℚ) / 6) ∧
    coverage_score scene = coverage_score scene := by
  have hcount :
      coverage_score scene = (((coverageChecks scene).count true : ℕ) : ℚ) / 6 := by
    unfold coverage_score coverageChecks
    rw [count_true_six_nat (arOk scene) (optTruthy (dget scene.st "lens_mm"))
      (optTruthy (dget scene.ds "primary_action"))
      (optTruthy (dget scene.ds "camera_move"))
      (!scene.timeline.isEmpty)
      (optTruthy (dget scene.dw "micro_vfx"))]
    norm_num
  refine ⟨hcount, ⟨(coverageChecks scene).count true, ?_, hcount⟩, rfl⟩
  calc (coverageChecks scene).count true
      ≤ (coverageChecks scene).length := List.count_le_length _ _
    _ = 6 := rfl

/-- C4: the Lexical Scorer returns exactly 0.7 when the set of distinct
alphabetic tokens of the lowercased brief is empty, and otherwise
min(1.0, 0.5 + 0.5 × hits / |brief tokens|) where hits counts the distinct
brief tokens occurring as substrings of the lowercased draft. -/
theorem C4_lexical_scorer (brief draft : String) :
    ((alphaTokens brief).dedup = [] → keyword_score brief draft = 0.7) ∧
    ((alphaTokens brief).dedup ≠ [] →
      keyword_score brief draft =
        min 1 (0.5 + 0.5 *
          ((((alphaTokens brief).dedup.filter
              (fun w => substrOf w (pyLower draft))).length : ℚ) /
            ((alphaTokens brief).dedup.length : ℚ)))) := by
  unfold keyword_score
  constructor
  · intro h
    rw [h]
    simp
  · intro h
    have hne : ¬((alphaTokens brief).dedup.isEmpty) := by
      simpa [List.isEmpty_iff] using h
    rw [if_neg hne]
    have hmax : (max 1 (alphaTokens brief).dedup.length : ℕ) =
        (alphaTokens brief).dedup.length := by
      have : 1 ≤ (alphaTokens brief).dedup.length := by
        cases hl : (alphaTokens brief).dedup with
        | nil => exact absurd hl h
        | cons x xs => simp
      omega
    rw [hmax]

/-- C4 witness: a brief with no alphabetic tokens scores exactly 0.7. -/
theorem C4_lexical_scorer_witness :
    (alphaTokens "123").dedup = ([] : List String) ∧
    keyword_score "123" "x" = 0.7 :=
  ⟨by decide, (C4_lexical_scorer "123" "x").1 (by decide)⟩

/-- C5: for a scene whose ds camera-move value is a string (or absent,
defaulting to the empty string), the Conflict Detector reports
"Multiple camera moves detected" iff that string contains one of the
characters `&`, `,`, `+` — a purely syntactic rule. -/
theorem C5_multi_camera_moves (scene : SceneDraft) (s : String) (l : List String)
    (hcm : dget scene.ds "camera_move" = some (Val.str s) ∨
           (dget scene.ds "camera_move" = none ∧ s = ""))
    (hok : detect_conflicts scene = .ok l) :
    "Multiple camera moves detected" ∈ l ↔
      (s.toList.contains '&' ∨ s.toList.contains ',' ∨ s.toList.contains '+') := by
  obtain ⟨b2, b4, b6, h2, _h4, _h6, hl⟩ := detect_conflicts_ok hok
  have hcm' : (dget scene.ds "camera_move").getD (.str "") = .str s := by
    rcases hcm with h | ⟨h, rfl⟩ <;> simp [h]
  have h2' : multiMoveCheck scene =
      .ok (substrOf "&" s || substrOf "," s || substrOf "+" s) := by
    unfold multiMoveCheck
    rw [hcm', pyAnyIn_seps_str]
  rw [h2] at h2'
  have hb2 : b2 = (substrOf "&" s || substrOf "," s || substrOf "+" s) := by
    injection h2'
  have hsub : ∀ c : Char, substrOf (String.mk [c]) s = s.toList.contains c := by
    intro c
    unfold substrOf
    exact infixOf_singleton c s.toList
  subst hl hb2
  simp only [List.mem_append, mem_condList, HARD_CONFLICTS]
  simp [hsub '&', hsub ',', hsub '+', or_assoc]

/-- C5 witness: the scene with camera move "pan left, tilt up" yields a
conflict list containing "Multiple camera moves detected". -/
theorem C5_multi_camera_moves_witness :
    detect_conflicts sceneC5 = .ok ["Multiple camera moves detected"] ∧
    "Multiple camera moves detected" ∈ ["Multiple camera moves detected"] :=
  ⟨by decide,
   (C5_multi_camera_moves sceneC5 "pan left, tilt up"
      ["Multiple camera moves detected"]
      (Or.inl (by decide)) (by decide)).mpr (by decide)⟩

/-- C6: for a scene whose ds penetration value (if any) is numeric, the
Conflict Detector reports "Penetration exceeds 0.2 cm" iff the value is
present, non-zero, and strictly greater than 2.0 (millimeters); exactly
2.0, zero, or an absent key produce no violation. -/
theorem C6_penetration_threshold (scene : SceneDraft) (l : List String)
    (hp : dget scene.ds "penetration_mm" = none ∨
          ∃ x : ℚ, dget scene.ds "penetration_mm" = some (Val.num x))
    (hok : detect_conflicts scene = .ok l) :
    "Penetration exceeds 0.2 cm" ∈ l ↔
      ∃ x : ℚ, dget scene.ds "penetration_mm" = some (Val.num x) ∧
        x ≠ 0 ∧ 2 < x := by
  obtain ⟨b2, b4, b6, _h2, h4, _h6, hl⟩ := detect_conflicts_ok hok
  subst hl
  have hmem : ("Penetration exceeds 0.2 cm" ∈
      condList (!arOk scene) (HARD_CONFLICTS "ar_lock_missing") ++
      condList b2 (HARD_CONFLICTS "multi_camera_moves") ++
      condList (weatherVfxCheck scene) (HARD_CONFLICTS "weather_vfx_double_strong") ++
      condList b4 (HARD_CONFLICTS "penetration_limit") ++
      condList (!isNumVal (dget scene.st "lens_mm")) (HARD_CONFLICTS "focal_not_locked") ++
      condList b6 (HARD_CONFLICTS "digital_crop")) ↔ b4 = true := by
    simp only [List.mem_append, mem_condList, HARD_CONFLICTS]
    simp
  rw [hmem]
  rcases hp with h | ⟨x, h⟩
  · have hpc : penetrationCheck scene = .ok false := by
      unfold penetrationCheck
      rw [h]
      simp [pyTruthy]
    rw [h4] at hpc
    have hb4 : b4 = false := by injection hpc
    subst hb4
    refine ⟨fun hf => absurd hf (by simp), ?_⟩
    rintro ⟨y, hy, _, _⟩
    rw [h] at hy
    cases hy
  · by_cases hx0 : x = 0
    · subst hx0
      have hpc : penetrationCheck scene = .ok false := by
        unfold penetrationCheck
        rw [h]
        simp [pyTruthy]
      rw [h4] at hpc
      have hb4 : b4 = false := by injection hpc
      subst hb4
      refine ⟨fun hf => absurd hf (by simp), ?_⟩
      rintro ⟨y, hy, hy0, _⟩
      rw [h] at hy
      cases hy
      exact absurd rfl hy0
    · have hpc : penetrationCheck scene = .ok (decide ((2:ℚ) < x)) := by
        unfold penetrationCheck
        rw [h]
        simp [pyTruthy, pyGtNum, Option.getD, hx0]
      rw [h4] at hpc
      have hb4 : b4 = decide ((2:ℚ) < x) := by injection hpc
      subst hb4
      rw [decide_eq_true_iff]
      constructor
      · intro h2x
        exact ⟨x, h, hx0, h2x⟩
      · rintro ⟨y, hy, _, hy2⟩
        rw [h] at hy
        cases hy
        exact hy2

/-- C6 witness: penetration 3 mm (> 2.0) yields exactly the penetration
violation. -/
theorem C6_penetration_threshold_witness :
    detect_conflicts sceneC6 = .ok ["Penetration exceeds 0.2 cm"] ∧
    "Penetration exceeds 0.2 cm" ∈ ["Penetration exceeds 0.2 cm"] :=
  ⟨by decide,
   (C6_penetration_threshold sceneC6 ["Penetration exceeds 0.2 cm"]
      (Or.inr ⟨3, by decide⟩) (by decide)).mpr
     ⟨3, by decide, by norm_num, by norm_num⟩⟩

/-- C10: on a scene whose `st.lens_mm` equals the number 0, the Coverage
Evaluator's lens check contributes 0 (the value is falsy) while the
Conflict Detector does not report "Focal length not locked or invalid"
(the value is numeric): the two predicates disagree. -/
theorem C10_lens_zero_disagreement (scene : SceneDraft) (l : List String)
    (hlens : dget scene.st "lens_mm" = some (Val.num 0))
    (hok : detect_conflicts scene = .ok l) :
    optTruthy (dget scene.st "lens_mm") = false ∧
    (coverageChecks scene).get? 1 = some false ∧
    "Focal length not locked or invalid" ∉ l := by
  obtain ⟨b2, b4, b6, _h2, _h4, _h6, hl⟩ := detect_conflicts_ok hok
  have htr : optTruthy (dget scene.st "lens_mm") = false := by
    rw [hlens]
    simp [optTruthy, pyTruthy]
  refine ⟨htr, ?_, ?_⟩
  · simp [coverageChecks, htr]
  · subst hl
    have hnum : isNumVal (dget scene.st "lens_mm") = true := by
      rw [hlens]
      rfl
    simp only [List.mem_append, mem_condList, HARD_CONFLICTS]
    simp [hnum]

/-- C10 witness: the concrete lens-0 scene has a falsy lens check and a
conflict list without the focal message. -/
theorem C10_lens_zero_disagreement_witness :
    detect_conflicts sceneC10 = .ok [] ∧
    (optTruthy (dget sceneC10.st "lens_mm") = false ∧
     (coverageChecks sceneC10).get? 1 = some false ∧
     "Focal length not locked or invalid" ∉ ([] : List String)) :=
  ⟨by decide,
   C10_lens_zero_disagreement sceneC10 [] (by decide) (by decide)⟩

/-- C8 counterexample: for a concept with no "lighting" anchor, the Scene
Composer sets `base_lighting` to the built-in fallback triple, not to an
empty list as the claim states. -/
theorem C8_missing_anchor_counterexample :
    dget (expand_scene conceptEmptyAnchors 3 5).st "base_lighting" =
      some (Val.list ["soft key", "gentle fill", "rim"]) ∧
    dget (expand_scene conceptEmptyAnchors 3 5).st "base_lighting" ≠
      some (Val.list []) := by
  refine ⟨rfl, ?_⟩
  rw [st_base_lighting]
  decide

/-- C8 (amended): a missing "palette" anchor is consumed as the empty list
(the draft joins an empty palette), but a missing "lighting" anchor makes
`base_lighting` the built-in fallback triple
["soft key", "gentle fill", "rim"], not the empty list. -/
theorem C8_missing_anchor_amended (c : Concept) (d : ℚ) (n : ℕ)
    (hp : anchorGet c.anchors "palette" = none)
    (hl : anchorGet c.anchors "lighting" = none) :
    dget (expand_scene c d n).st "base_lighting" =
      some (Val.list ["soft key", "gentle fill", "rim"]) ∧
    draftGetD (expand_scene c d n).drafts "sora" "" =
      sora_draft [] (timeline d n) := by
  constructor
  · rw [st_base_lighting, anchorGetD_of_none hl]
  · rw [drafts_sora_eq, anchorGetD_of_none hp]

/-- C8 witness: the amended statement at the concrete anchor-free
concept. -/
theorem C8_missing_anchor_amended_witness :
    dget (expand_scene conceptEmptyAnchors 3 5).st "base_lighting" =
      some (Val.list ["soft key", "gentle fill", "rim"]) ∧
    draftGetD (expand_scene conceptEmptyAnchors 3 5).drafts "sora" "" =
      sora_draft [] (timeline 3 5) :=
  C8_missing_anchor_amended conceptEmptyAnchors 3 5 rfl rfl

/-- C7: for every concept, duration and beat count, the composed "veo"
draft equals the "sora" draft with every occurrence of
"winter street evening" replaced by "city plaza dusk", and nothing else
differs. -/
theorem C7_engine_variants (sel : Concept) (d : ℚ) (n : ℕ) :
    draftGet (expand_scene sel d n).drafts "veo" =
      (draftGet (expand_scene sel d n).drafts "sora").map
        (fun s => pyReplace s "winter street evening" "city plaza dusk") := by
  rfl

/-- C9: the returned QAReport's score fields are the raw scorer and
coverage values rounded to 3 decimal places, while the severity verdict is
computed from the unrounded values; consequently a raw coverage of 5/6 is
reported as 0.833, which lies outside {0/6, …, 6/6}. -/
theorem C9_report_rounding (scene : SceneDraft) (engine : String) (r : QAReport)
    (h : qa_validate_report scene engine = .ok r) :
    (∃ cs, detect_conflicts scene = .ok cs ∧
      r.story_match_score = pyRound (story_match_raw scene engine) 3 ∧
      r.coverage_score = pyRound (coverage_score scene) 3 ∧
      r.conflicts = cs ∧
      r.severity = severity (story_match_raw scene engine)
        (coverage_score scene) cs) ∧
    pyRound ((5:ℚ)/6) 3 = 0.833 ∧
    (∀ k : ℕ, k ≤ 6 → (0.833 : ℚ) ≠ (k : ℚ) / 6) := by
  refine ⟨?_, by norm_num [pyRound, roundHalfEven], ?_⟩
  · unfold qa_validate_report at h
    cases hd : detect_conflicts scene with
    | error e => rw [hd] at h; cases h
    | ok cs =>
      rw [hd] at h
      cases h
      exact ⟨cs, rfl, rfl, rfl, rfl, rfl⟩
  · intro k hk
    interval_cases k <;> norm_num

/-- C9 witness: the report for `sceneC9` (raw scores 1/2 and 5/6) carries
the rounded scores 0.5 and 0.833 and severity "fail". -/
theorem C9_report_rounding_witness :
    qa_validate_report sceneC9 "SORA" = .ok reportC9 ∧
    ((∃ cs, detect_conflicts sceneC9 = .ok cs ∧
        reportC9.story_match_score = pyRound (story_match_raw sceneC9 "SORA") 3 ∧
        reportC9.coverage_score = pyRound (coverage_score sceneC9) 3 ∧
        reportC9.conflicts = cs ∧
        reportC9.severity = severity (story_match_raw sceneC9 "SORA")
          (coverage_score sceneC9) cs) ∧
      pyRound ((5:ℚ)/6) 3 = 0.833 ∧
      (∀ k : ℕ, k ≤ 6 → (0.833 : ℚ) ≠ (k : ℚ) / 6)) := by
  have hdet : detect_conflicts sceneC9 = .ok [] := by decide
  have hd2 : story_match_raw sceneC9 "SORA" = keyword_score (dumpStDs sceneC9) "" := rfl
  have hw : (alphaTokens (dumpStDs sceneC9)).dedup =
      ["st", "ar", "lens", "mm", "ds", "primary", "action", "handoff",
       "camera", "move", "push"] := by decide
  have hf : (["st", "ar", "lens", "mm", "ds", "primary", "action", "handoff",
      "camera", "move", "push"].filter
        (fun w => substrOf w (pyLower ""))) = ([] : List String) := by decide
  have hsm : story_match_raw sceneC9 "SORA" = 1/2 := by
    rw [hd2]
    unfold keyword_score
    simp only [hw]
    simp only [hf]
    norm_num [min_def]
  have c1 : arOk sceneC9 = true := by decide
  have c2 : optTruthy (dget sceneC9.st "lens_mm") = false := by decide
  have c3 : optTruthy (dget sceneC9.ds "primary_action") = true := by decide
  have c4 : optTruthy (dget sceneC9.ds "camera_move") = true := by decide
  have c5 : sceneC9.timeline.isEmpty = false := by decide
  have c6 : optTruthy (dget sceneC9.dw "micro_vfx") = true := by decide
  have hcov : coverage_score sceneC9 = 5/6 := by
    unfold coverage_score
    rw [c1, c2, c3, c4, c5, c6]
    norm_num
  have hsev : severity ((1:ℚ)/2) ((5:ℚ)/6) [] = "fail" := by
    unfold severity
    rw [if_pos (Or.inl (by norm_num))]
  have hr1 : pyRound ((1:ℚ)/2) 3 = 1/2 := by norm_num [pyRound, roundHalfEven]
  have hr2 : pyRound ((5:ℚ)/6) 3 = 833/1000 := by norm_num [pyRound, roundHalfEven]
  have hq : qa_validate_report sceneC9 "SORA" = .ok reportC9 := by
    unfold qa_validate_report
    rw [hdet, hsm, hcov]
    show Except.ok
        { story_match_score := pyRound ((1:ℚ)/2) 3,
          coverage_score := pyRound ((5:ℚ)/6) 3,
          conflicts := ([] : List String),
          severity := severity ((1:ℚ)/2) ((5:ℚ)/6) [] } =
      Except.ok reportC9
    rw [hsev, hr1, hr2]
    rfl
  exact ⟨hq, C9_report_rounding sceneC9 "SORA" reportC9 hq⟩

end AVG
